import Mathlib

/-!
# Verification of the `signals` library (`src/signals.rs`)

A shallow embedding of the signal-relay library: the `Signal` catalog with its
numeric codes, and a state machine over the process-wide statics
(`ALIVE`, `INITIALIZED`, `SND`, `RCV`, the mpsc channel contents, and the
OS-level signal-handler table). Machine integers (`c_int`) are modelled as
`Int`; all signal codes are small positive values, so no wrap-around can occur.
Pointers (`SND`, `RCV`) are modelled as `Option Nat`: `none` is the null
pointer, `some i` points at the channel endpoint of the `i`-th channel created
(the `Once` guard ensures at most one channel is ever created, so the only id
in play is `0`).
-/

/-- The signal catalog (`enum Signal` in `src/signals.rs`), a closed set of
symbolic values. -/
inductive Signal where
  | Abort
  | Alarm
  | Bus
  | Child
  | Continue
  | FPE
  | Hangup
  | Illegal
  | Interrupt
  | Kill
  | Pipe
  | Quit
  | Poll
  | Prof
  | Segfault
  | Stop
  | TermStop
  | Sys
  | Terminate
  | Trap
  | TTIN
  | TTOU
  | Urgent
  | User1
  | User2
  | WinSize
  | XCPU
  | XFSZ
  deriving DecidableEq, Repr, Fintype

/-- The numeric code of each catalog entry: the enum discriminants of
`enum Signal`, read by the Rust code as `sig as c_int`. -/
def signalToC : Signal → Int
  | .Abort     => 6
  | .Alarm     => 14
  | .Bus       => 10
  | .Child     => 18
  | .Continue  => 25
  | .FPE       => 8
  | .Hangup    => 1
  | .Illegal   => 4
  | .Interrupt => 2
  | .Kill      => 9
  | .Pipe      => 13
  | .Quit      => 3
  | .Poll      => 22
  | .Prof      => 29
  | .Segfault  => 11
  | .Stop      => 23
  | .TermStop  => 20
  | .Sys       => 12
  | .Terminate => 15
  | .Trap      => 5
  | .TTIN      => 26
  | .TTOU      => 27
  | .Urgent    => 21
  | .User1     => 16
  | .User2     => 17
  | .WinSize   => 28
  | .XCPU      => 30
  | .XFSZ      => 31

/-- The numeric-to-symbolic translation performed by the guard chain in
`handler` (`src/signals.rs` lines 44-73): the guards
`_ if num == Signal::X as c_int => ...` are tried in source order; the final
catch-all arm `_ => Ok(())` corresponds to `none`. -/
def signalFromC (num : Int) : Option Signal :=
  if num = signalToC .Abort then some .Abort
  else if num = signalToC .Alarm then some .Alarm
  else if num = signalToC .Bus then some .Bus
  else if num = signalToC .Child then some .Child
  else if num = signalToC .Continue then some .Continue
  else if num = signalToC .FPE then some .FPE
  else if num = signalToC .Hangup then some .Hangup
  else if num = signalToC .Illegal then some .Illegal
  else if num = signalToC .Interrupt then some .Interrupt
  else if num = signalToC .Kill then some .Kill
  else if num = signalToC .Pipe then some .Pipe
  else if num = signalToC .Quit then some .Quit
  else if num = signalToC .Poll then some .Poll
  else if num = signalToC .Prof then some .Prof
  else if num = signalToC .Segfault then some .Segfault
  else if num = signalToC .Stop then some .Stop
  else if num = signalToC .TermStop then some .TermStop
  else if num = signalToC .Sys then some .Sys
  else if num = signalToC .Terminate then some .Terminate
  else if num = signalToC .Trap then some .Trap
  else if num = signalToC .TTIN then some .TTIN
  else if num = signalToC .TTOU then some .TTOU
  else if num = signalToC .Urgent then some .Urgent
  else if num = signalToC .User1 then some .User1
  else if num = signalToC .User2 then some .User2
  else if num = signalToC .WinSize then some .WinSize
  else if num = signalToC .XCPU then some .XCPU
  else if num = signalToC .XFSZ then some .XFSZ
  else none

/-- The process-wide state touched by the library: the four statics of
`src/signals.rs` (lines 30-33), the contents of the mpsc channel the pointers
refer to, the OS-level handler table manipulated through `signal(2)`, and a
counter of how many times `channel()` has been run (to express that the
channel is created at most once). -/
structure GState where
  /-- The `ALIVE: AtomicBool` static: a live `Signals` handle exists. -/
  alive : Bool
  /-- Whether the `INITIALIZED: Once` guard has completed its closure. -/
  initialized : Bool
  /-- The `SND: *const Sender<Signal>` static; `none` is the null pointer. -/
  snd : Option Nat
  /-- The `RCV: *const Receiver<Signal>` static; `none` is the null pointer. -/
  rcv : Option Nat
  /-- The FIFO contents of the mpsc channel (front of the list pops first). -/
  queue : List Signal
  /-- The OS signal-handler table: `true` at `n` when the relay's `handler`
  is installed for numeric code `n`, `false` for the default disposition. -/
  osTable : Int → Bool
  /-- How many times `channel()` has been executed in this process. -/
  chanCreations : Nat

/-- Process start-up: `ALIVE` false, `Once` not run, both pointers null
(`0 as *const _`), empty channel-to-be, default dispositions everywhere. -/
def startState : GState :=
  { alive := false
    initialized := false
    snd := none
    rcv := none
    queue := []
    osTable := fun _ => false
    chanCreations := 0 }

/-- `INITIALIZED.call_once(|| ...)` in `Signals::new` (lines 147-155): on the
first run it creates the channel, boxes and leaks both endpoints, and stores
their addresses in `SND` and `RCV`; on every later run it does nothing. -/
def callOnce (s : GState) : GState :=
  if s.initialized then s
  else
    { s with
        initialized := true
        snd := some s.chanCreations
        rcv := some s.chanCreations
        chanCreations := s.chanCreations + 1 }

/-- `Signals::new` (lines 145-161): run the `Once` body, then
`ALIVE.compare_and_swap(false, true, Relaxed)`; if the previous value was
`true` return `None`, otherwise the flag is now `true` and a handle is
returned. The handle (`struct Signals`, a unit struct) is modelled as `Unit`. -/
def Signals.new (s : GState) : GState × Option Unit :=
  let s1 := callOnce s
  if s1.alive then (s1, none)
  else ({ s1 with alive := true }, some ())

/-- `impl Drop for Signals` (lines 187-191): `ALIVE.store(false, Relaxed)`. -/
def Signals.drop (s : GState) : GState :=
  { s with alive := false }

/-- The extern OS call `signal(signum, hdlr)` (line 36): ask the OS to install
(`install = true`, i.e. `Some(handler)`) or reset (`install = false`, i.e.
`None`) the disposition for code `num`. `osAccepts` says which codes the
platform allows to be changed (e.g. `SIGKILL` is refused); on refusal the
table is unchanged and the OS reports failure. The Rust extern declaration
has no return type, so the success flag is produced here but dropped by the
callers below. -/
def osSignal (osAccepts : Int → Bool) (num : Int) (install : Bool)
    (s : GState) : GState × Bool :=
  if osAccepts num then
    ({ s with osTable := fun n => if n = num then install else s.osTable n },
     true)
  else (s, false)

/-- `Signals::subscribe` (lines 167-169): `signal(sig as c_int, Some(handler))`.
The Rust function returns `()`; the OS call's outcome is discarded. The
second component is the value returned to the caller. -/
def Signals.subscribe (osAccepts : Int → Bool) (sig : Signal)
    (s : GState) : GState × Unit :=
  ((osSignal osAccepts (signalToC sig) true s).1, ())

/-- `Signals::unsubscribe` (lines 172-174): `signal(sig as c_int, None)`,
restoring the default disposition; returns `()` like `subscribe`. -/
def Signals.unsubscribe (osAccepts : Int → Bool) (sig : Signal)
    (s : GState) : GState × Unit :=
  ((osSignal osAccepts (signalToC sig) false s).1, ())

/-- `Signals::receiver` (lines 182-184): returns the `RCV` pointer, transmuted
to a reference (a dereference of the static). -/
def Signals.receiver (s : GState) : Option Nat :=
  s.rcv

/-- `Sender::send` from `std::sync::mpsc`: enqueues at the back and returns
`Ok(())` while the receiver is alive; once the receiver is gone it enqueues
nothing and returns `Err(SendError(v))`. In this library the receiver is
leaked (`forget(r)`) and never dropped, so `recvConnected` is `true` in every
real execution; the parameter keeps the failure path of the code visible. -/
def mpscSend (recvConnected : Bool) (v : Signal) (q : List Signal) :
    Except Unit Unit × List Signal :=
  if recvConnected then (.ok (), q ++ [v]) else (.error (), q)

/-- `Receiver::try_recv`: pop the front of the queue if non-empty, otherwise
return an error immediately (never blocks). -/
def tryRecv (q : List Signal) : Except Unit Signal × List Signal :=
  match q with
  | [] => (.error (), [])
  | v :: rest => (.ok v, rest)

/-- Outcome of one run of the signal handler: the final global state, plus
whether the run panicked/aborted. -/
structure HandlerResult where
  state : GState
  panicked : Bool

/-- `handler` (lines 39-75), instrumented with a panic flag. If `ALIVE` is
false it returns at once. Otherwise the guard chain translates `num`; a
matching arm runs `snd.send(sig)` (whose `Result` and queue effect come from
`mpscSend`), and the catch-all arm yields `Ok(())` with no queue effect.
`.unwrap_or_else(|_| ())` then maps **both** the `Ok` and the `Err` case to a
normal return — an `unwrap()` would have panicked on `Err`, and that is the
only difference between the two final branches below. -/
def handlerCore (recvConnected : Bool) (num : Int) (s : GState) :
    HandlerResult :=
  if !s.alive then { state := s, panicked := false }
  else
    match (match signalFromC num with
           | some sig => mpscSend recvConnected sig s.queue
           | none => (.ok (), s.queue) :
           Except Unit Unit × List Signal) with
    | (.ok _, q) => { state := { s with queue := q }, panicked := false }
    | (.error _, q) => { state := { s with queue := q }, panicked := false }

/-- The state transformation of one `handler` run. -/
def handler (recvConnected : Bool) (num : Int) (s : GState) : GState :=
  (handlerCore recvConnected num s).state

/-- `SignalIter::next` (lines 199-205): `rcv.try_recv()`, mapping `Ok(v)` to
`Some(v)` and any error to `None`; never blocks. -/
def SignalIter.next (s : GState) : GState × Option Signal :=
  match tryRecv s.queue with
  | (.ok v, q) => ({ s with queue := q }, some v)
  | (.error _, q) => ({ s with queue := q }, none)

/-- States reachable through the public interface from process start-up.
Operations that need a live `Signals` handle (its methods, the iterator, and
`drop`) require `alive = true`: a handle exists exactly while `ALIVE` holds,
and `SignalIter` / the receiver reference borrow from the handle. The OS may
fire `handler` at any time with any code. -/
inductive Reachable : GState → Prop where
  | start : Reachable startState
  | new {s} : Reachable s → Reachable (Signals.new s).1
  | subscribe {s} (acc : Int → Bool) (sig : Signal) : Reachable s →
      s.alive = true → Reachable (Signals.subscribe acc sig s).1
  | unsubscribe {s} (acc : Int → Bool) (sig : Signal) : Reachable s →
      s.alive = true → Reachable (Signals.unsubscribe acc sig s).1
  | handlerFires {s} (rc : Bool) (num : Int) : Reachable s →
      Reachable (handler rc num s)
  | iterNext {s} : Reachable s → s.alive = true →
      Reachable (SignalIter.next s).1
  | dropHandle {s} : Reachable s → s.alive = true →
      Reachable (Signals.drop s)


/-- The channel invariant: once the `Once` body has run, both statics point at
the endpoints of the single channel with id `0` and no further channel is ever
created; before it runs both pointers are null; and a live handle implies the
`Once` body has run. -/
def ChannelInv (s : GState) : Prop :=
  (s.initialized = true → s.snd = some 0 ∧ s.rcv = some 0 ∧ s.chanCreations = 1) ∧
  (s.initialized = false → s.snd = none ∧ s.rcv = none ∧ s.chanCreations = 0) ∧
  (s.alive = true → s.initialized = true)

theorem callOnce_alive (s : GState) : (callOnce s).alive = s.alive := by
  unfold callOnce
  split <;> rfl

theorem callOnce_queue (s : GState) : (callOnce s).queue = s.queue := by
  unfold callOnce
  split <;> rfl

theorem callOnce_osTable (s : GState) : (callOnce s).osTable = s.osTable := by
  unfold callOnce
  split <;> rfl

theorem callOnce_of_initialized {s : GState} (h : s.initialized = true) :
    callOnce s = s := by
  unfold callOnce
  simp [h]

theorem osSignal_only_osTable (acc : Int → Bool) (num : Int) (b : Bool)
    (s : GState) :
    (osSignal acc num b s).1.alive = s.alive ∧
    (osSignal acc num b s).1.initialized = s.initialized ∧
    (osSignal acc num b s).1.snd = s.snd ∧
    (osSignal acc num b s).1.rcv = s.rcv ∧
    (osSignal acc num b s).1.queue = s.queue ∧
    (osSignal acc num b s).1.chanCreations = s.chanCreations := by
  unfold osSignal
  split <;> exact ⟨rfl, rfl, rfl, rfl, rfl, rfl⟩

theorem handler_only_queue (rc : Bool) (num : Int) (s : GState) :
    (handler rc num s).alive = s.alive ∧
    (handler rc num s).initialized = s.initialized ∧
    (handler rc num s).snd = s.snd ∧
    (handler rc num s).rcv = s.rcv ∧
    (handler rc num s).osTable = s.osTable ∧
    (handler rc num s).chanCreations = s.chanCreations := by
  unfold handler handlerCore
  split
  · exact ⟨rfl, rfl, rfl, rfl, rfl, rfl⟩
  · split <;> exact ⟨rfl, rfl, rfl, rfl, rfl, rfl⟩

theorem next_only_queue (s : GState) :
    (SignalIter.next s).1.alive = s.alive ∧
    (SignalIter.next s).1.initialized = s.initialized ∧
    (SignalIter.next s).1.snd = s.snd ∧
    (SignalIter.next s).1.rcv = s.rcv ∧
    (SignalIter.next s).1.osTable = s.osTable ∧
    (SignalIter.next s).1.chanCreations = s.chanCreations := by
  unfold SignalIter.next tryRecv
  cases s.queue <;> exact ⟨rfl, rfl, rfl, rfl, rfl, rfl⟩

theorem callOnce_channelInv {s : GState} (h : ChannelInv s) :
    ChannelInv (callOnce s) ∧ (callOnce s).initialized = true := by
  cases hi : s.initialized
  · obtain ⟨hsn, hrc, hcc⟩ := h.2.1 hi
    have hco : callOnce s =
        { s with
            initialized := true
            snd := some s.chanCreations
            rcv := some s.chanCreations
            chanCreations := s.chanCreations + 1 } := by
      unfold callOnce
      simp [hi]
    rw [hco]
    refine ⟨⟨fun _ => ⟨by simp [hcc], by simp [hcc], by simp [hcc]⟩,
      fun hf => ?_, fun _ => rfl⟩, rfl⟩
    simp at hf
  · have hco : callOnce s = s := callOnce_of_initialized hi
    rw [hco]
    exact ⟨h, hi⟩

theorem reachable_channelInv {s : GState} (h : Reachable s) : ChannelInv s := by
  induction h with
  | start =>
      exact ⟨fun hf => by simp [startState] at hf, fun _ => ⟨rfl, rfl, rfl⟩,
        fun hf => by simp [startState] at hf⟩
  | new _ ih =>
      obtain ⟨h1, h2⟩ := callOnce_channelInv ih
      simp only [Signals.new]
      split
      · exact h1
      · refine ⟨fun _ => h1.1 h2, fun hf => ?_, fun _ => h2⟩
        rw [h2] at hf
        simp at hf
  | subscribe acc sig _ _ ih =>
      obtain ⟨ha, hi, hsn, hrc, _, hcc⟩ :=
        osSignal_only_osTable acc (signalToC sig) true _
      unfold Signals.subscribe
      exact ⟨fun h => by rw [hi] at h; exact (hsn ▸ hrc ▸ hcc ▸ ih.1 h),
        fun h => by rw [hi] at h; exact (hsn ▸ hrc ▸ hcc ▸ ih.2.1 h),
        fun h => by rw [ha] at h; rw [hi]; exact ih.2.2 h⟩
  | unsubscribe acc sig _ _ ih =>
      obtain ⟨ha, hi, hsn, hrc, _, hcc⟩ :=
        osSignal_only_osTable acc (signalToC sig) false _
      unfold Signals.unsubscribe
      exact ⟨fun h => by rw [hi] at h; exact (hsn ▸ hrc ▸ hcc ▸ ih.1 h),
        fun h => by rw [hi] at h; exact (hsn ▸ hrc ▸ hcc ▸ ih.2.1 h),
        fun h => by rw [ha] at h; rw [hi]; exact ih.2.2 h⟩
  | handlerFires rc num _ ih =>
      obtain ⟨ha, hi, hsn, hrc, _, hcc⟩ := handler_only_queue rc num _
      exact ⟨fun h => by rw [hi] at h; exact (hsn ▸ hrc ▸ hcc ▸ ih.1 h),
        fun h => by rw [hi] at h; exact (hsn ▸ hrc ▸ hcc ▸ ih.2.1 h),
        fun h => by rw [ha] at h; rw [hi]; exact ih.2.2 h⟩
  | iterNext _ _ ih =>
      obtain ⟨ha, hi, hsn, hrc, _, hcc⟩ := next_only_queue _
      exact ⟨fun h => by rw [hi] at h; exact (hsn ▸ hrc ▸ hcc ▸ ih.1 h),
        fun h => by rw [hi] at h; exact (hsn ▸ hrc ▸ hcc ▸ ih.2.1 h),
        fun h => by rw [ha] at h; rw [hi]; exact ih.2.2 h⟩
  | dropHandle _ _ ih =>
      exact ⟨fun h => ih.1 h, fun h => ih.2.1 h,
        fun hf => by simp [Signals.drop] at hf⟩

theorem signalFromC_toC : ∀ sig : Signal, signalFromC (signalToC sig) = some sig := by
  decide

theorem signalFromC_eq_none {num : Int} (h : ∀ sig : Signal, num ≠ signalToC sig) :
    signalFromC num = none := by
  unfold signalFromC
  rw [if_neg (h .Abort), if_neg (h .Alarm), if_neg (h .Bus), if_neg (h .Child),
    if_neg (h .Continue), if_neg (h .FPE), if_neg (h .Hangup),
    if_neg (h .Illegal), if_neg (h .Interrupt), if_neg (h .Kill),
    if_neg (h .Pipe), if_neg (h .Quit), if_neg (h .Poll), if_neg (h .Prof),
    if_neg (h .Segfault), if_neg (h .Stop), if_neg (h .TermStop),
    if_neg (h .Sys), if_neg (h .Terminate), if_neg (h .Trap),
    if_neg (h .TTIN), if_neg (h .TTOU), if_neg (h .Urgent),
    if_neg (h .User1), if_neg (h .User2), if_neg (h .WinSize),
    if_neg (h .XCPU), if_neg (h .XFSZ)]

/-- C1: `Signals::new` with the `ALIVE` flag already set returns `None` and no
handle (a total function in the model — no panic or abort); with the flag
clear it sets the flag and returns a handle (`some ()`). -/
theorem new_active_flag_behavior (s : GState) :
    (s.alive = true → (Signals.new s).2 = none ∧ (Signals.new s).1.alive = true) ∧
    (s.alive = false → (Signals.new s).2 = some () ∧ (Signals.new s).1.alive = true) := by
  constructor
  · intro h
    simp only [Signals.new]
    rw [callOnce_alive, h]
    exact ⟨rfl, by rw [if_pos rfl]; exact (callOnce_alive s).trans h⟩
  · intro h
    simp only [Signals.new]
    rw [callOnce_alive, h]
    exact ⟨rfl, rfl⟩

/-- Witness for C1 at concrete states: from a state with `ALIVE` set, `new`
returns `None`; from process start-up it returns a handle. -/
theorem new_active_flag_behavior_witness :
    (Signals.new { startState with alive := true }).2 = none ∧
    (Signals.new startState).2 = some () :=
  ⟨((new_active_flag_behavior { startState with alive := true }).1 rfl).1,
   ((new_active_flag_behavior startState).2 rfl).1⟩

/-- C2: the dispatch routine with the relay inactive changes nothing; with the
relay active it appends exactly the catalog value whose code is `num` to the
channel, and appends nothing when `num` matches no catalog entry. (The
receiver-connected flag is `true`: the receiver is leaked by `Signals::new`
and never dropped in this library.) -/
theorem handler_dispatch (num : Int) (s : GState) :
    (s.alive = false → handler true num s = s) ∧
    (s.alive = true →
      (∀ sig : Signal, num = signalToC sig →
        handler true num s = { s with queue := s.queue ++ [sig] }) ∧
      ((∀ sig : Signal, num ≠ signalToC sig) → handler true num s = s)) := by
  constructor
  · intro h
    simp [handler, handlerCore, h]
  · intro h
    constructor
    · intro sig hnum
      subst hnum
      simp [handler, handlerCore, h, signalFromC_toC, mpscSend]
    · intro hnone
      simp [handler, handlerCore, h, signalFromC_eq_none hnone]
      rw [← h]

/-- Witness for C2 at concrete inputs: with the relay active, code 2 enqueues
`Interrupt`, and the unknown code 99 enqueues nothing. -/
theorem handler_dispatch_witness :
    handler true 2 { startState with alive := true } =
      { startState with alive := true, queue := [Signal.Interrupt] } ∧
    handler true 99 { startState with alive := true } =
      { startState with alive := true } :=
  ⟨((handler_dispatch 2 { startState with alive := true }).2 rfl).1
      Signal.Interrupt rfl,
   ((handler_dispatch 99 { startState with alive := true }).2 rfl).2
      (by decide)⟩

/-- C3: the symbolic-to-numeric conversion round-trips through the guard
chain of `handler` for every catalog entry, and is therefore injective over
the catalog. -/
theorem signal_roundtrip_injective :
    (∀ sig : Signal, signalFromC (signalToC sig) = some sig) ∧
    ∀ a b : Signal, signalToC a = signalToC b → a = b := by
  constructor
  · exact signalFromC_toC
  · intro a b h
    have ha := signalFromC_toC a
    rw [h, signalFromC_toC b] at ha
    exact (Option.some.inj ha).symm

/-- Witness for C3 at concrete catalog entries. -/
theorem signal_roundtrip_injective_witness :
    signalFromC (signalToC Signal.Interrupt) = some Signal.Interrupt ∧
    Signal.Abort = Signal.Abort :=
  ⟨signal_roundtrip_injective.1 Signal.Interrupt,
   signal_roundtrip_injective.2 Signal.Abort Signal.Abort rfl⟩

/-- C4 counterexample: the value `Signals::subscribe` / `unsubscribe` return
to the caller is `()` — their extern `signal` binding declares no return type
— so the caller-visible result of a registration call the OS **rejects**
(`osAccepts = fun _ => false`) is identical to that of one the OS accepts:
the platform-reported failure is not reported back, contradicting the claim. -/
theorem subscribe_failure_unreported_cex :
    (Signals.subscribe (fun _ => false) Signal.Interrupt startState).2 =
      (Signals.subscribe (fun _ => true) Signal.Interrupt startState).2 ∧
    (Signals.unsubscribe (fun _ => false) Signal.Interrupt startState).2 =
      (Signals.unsubscribe (fun _ => true) Signal.Interrupt startState).2 :=
  ⟨rfl, rfl⟩

/-- C4 (amended): `subscribe` and `unsubscribe` always return `()`; when the
OS rejects the registration call the state is left unchanged and the failure
is silently discarded, and when it accepts, the handler table is updated at
the signal's code. -/
theorem subscribe_failure_swallowed (acc : Int → Bool) (sig : Signal)
    (s : GState) :
    (Signals.subscribe acc sig s).2 = () ∧
    (Signals.unsubscribe acc sig s).2 = () ∧
    (acc (signalToC sig) = false →
      (Signals.subscribe acc sig s).1 = s ∧
      (Signals.unsubscribe acc sig s).1 = s) ∧
    (acc (signalToC sig) = true →
      (Signals.subscribe acc sig s).1.osTable (signalToC sig) = true ∧
      (Signals.unsubscribe acc sig s).1.osTable (signalToC sig) = false) := by
  refine ⟨rfl, rfl, fun hrej => ?_, fun hacc => ?_⟩
  · constructor <;> simp [Signals.subscribe, Signals.unsubscribe, osSignal, hrej]
  · constructor <;> simp [Signals.subscribe, Signals.unsubscribe, osSignal, hacc]

/-- Witness for the amended C4: the OS refusing to re-register `Kill` leaves
the state unchanged, and an accepted registration of `Interrupt` installs the
handler. -/
theorem subscribe_failure_swallowed_witness :
    (Signals.subscribe (fun _ => false) Signal.Kill startState).1 = startState ∧
    (Signals.subscribe (fun _ => true) Signal.Interrupt startState).1.osTable
      (signalToC Signal.Interrupt) = true :=
  ⟨((subscribe_failure_swallowed (fun _ => false) Signal.Kill startState).2.2.1
      rfl).1,
   ((subscribe_failure_swallowed (fun _ => true) Signal.Interrupt
      startState).2.2.2 rfl).1⟩

/-- C5: after the handle is dropped (which clears `ALIVE`), a subsequent call
to `Signals::new` succeeds: it returns a handle and sets the flag again. -/
theorem new_after_drop_succeeds (s : GState) :
    (Signals.new (Signals.drop s)).2 = some () ∧
    (Signals.new (Signals.drop s)).1.alive = true := by
  simp only [Signals.new]
  rw [callOnce_alive]
  exact ⟨rfl, rfl⟩

/-- C6: in every reachable state `channel()` has run at most once, and when
the `Once` guard has completed, a further `Signals::new` reuses the existing
channel: the endpoint pointers, the queued values, and the creation count are
all unchanged — the queue is never recreated, so values enqueued under an
earlier handle remain available to a later one. -/
theorem channel_established_once {s : GState} (h : Reachable s) :
    s.chanCreations ≤ 1 ∧
    (s.initialized = true →
      (Signals.new s).1.snd = s.snd ∧
      (Signals.new s).1.rcv = s.rcv ∧
      (Signals.new s).1.queue = s.queue ∧
      (Signals.new s).1.chanCreations = s.chanCreations) := by
  have hv := reachable_channelInv h
  constructor
  · cases hi : s.initialized
    · rw [(hv.2.1 hi).2.2]
      decide
    · rw [(hv.1 hi).2.2]
  · intro hinit
    have hco : callOnce s = s := callOnce_of_initialized hinit
    simp only [Signals.new, hco]
    split <;> exact ⟨rfl, rfl, rfl, rfl⟩

/-- Witness for C6 in the reachable state right after the first successful
`Signals::new`. -/
theorem channel_established_once_witness :
    (Signals.new startState).1.chanCreations ≤ 1 ∧
    ((Signals.new startState).1.initialized = true →
      (Signals.new (Signals.new startState).1).1.snd =
        (Signals.new startState).1.snd ∧
      (Signals.new (Signals.new startState).1).1.rcv =
        (Signals.new startState).1.rcv ∧
      (Signals.new (Signals.new startState).1).1.queue =
        (Signals.new startState).1.queue ∧
      (Signals.new (Signals.new startState).1).1.chanCreations =
        (Signals.new startState).1.chanCreations) :=
  channel_established_once (Reachable.new Reachable.start)

/-- C7: `Drop for Signals` clears `ALIVE` and changes nothing else: the OS
handler table (so every registration made via `subscribe` stays installed),
the queue contents, both endpoint pointers, the `Once` state, and the
creation count are all untouched. -/
theorem drop_frame (s : GState) :
    (Signals.drop s).alive = false ∧
    (Signals.drop s).osTable = s.osTable ∧
    (Signals.drop s).queue = s.queue ∧
    (Signals.drop s).snd = s.snd ∧
    (Signals.drop s).rcv = s.rcv ∧
    (Signals.drop s).initialized = s.initialized ∧
    (Signals.drop s).chanCreations = s.chanCreations :=
  ⟨rfl, rfl, rfl, rfl, rfl, rfl, rfl⟩

/-- C8: one run of the dispatch routine never panics for any numeric code,
any receiver state, and any global state (`unwrap_or_else(|_| ())` maps the
`Err` of `send` to a normal return and the catch-all arm yields `Ok(())`); an
unrecognized code leaves the state unchanged (silently discarded), and a
failed enqueue (receiver gone) also leaves the state unchanged (silently
swallowed). -/
theorem handler_never_panics (rc : Bool) (num : Int) (s : GState) :
    (handlerCore rc num s).panicked = false ∧
    (signalFromC num = none → handler rc num s = s) ∧
    (rc = false → handler rc num s = s) := by
  refine ⟨?_, fun hnone => ?_, fun hrc => ?_⟩
  · unfold handlerCore
    split
    · rfl
    · split <;> rfl
  · cases s with
    | mk a i sn rv q ot cc =>
      cases a <;> simp [handler, handlerCore, hnone]
  · subst hrc
    cases s with
    | mk a i sn rv q ot cc =>
      cases a
      · simp [handler, handlerCore]
      · cases hsf : signalFromC num <;>
          simp [handler, handlerCore, hsf, mpscSend]

/-- Witness for C8 at concrete inputs: the unknown code 99 fired while active
is a normal no-op, and a matched code with the receiver gone is also a normal
no-op. -/
theorem handler_never_panics_witness :
    (handlerCore true 99 { startState with alive := true }).panicked = false ∧
    handler true 99 { startState with alive := true } =
      { startState with alive := true } ∧
    handler false 2 { startState with alive := true } =
      { startState with alive := true } :=
  ⟨(handler_never_panics true 99 { startState with alive := true }).1,
   (handler_never_panics true 99 { startState with alive := true }).2.1
     (by decide),
   (handler_never_panics false 2 { startState with alive := true }).2.2 rfl⟩

/-- C9: `SignalIter::next` never blocks: on an empty queue it returns `None`
immediately, and on a non-empty queue it returns the front value and leaves
the rest queued. -/
theorem iter_next_nonblocking (s : GState) :
    (s.queue = [] → SignalIter.next s = (s, none)) ∧
    (∀ v rest, s.queue = v :: rest →
      SignalIter.next s = ({ s with queue := rest }, some v)) := by
  constructor
  · intro h
    cases s with
    | mk a i sn rv q ot cc =>
      simp only at h
      subst h
      rfl
  · intro v rest h
    cases s with
    | mk a i sn rv q ot cc =>
      simp only at h
      subst h
      rfl

/-- Witness for C9 at concrete queues: empty queue yields `none`; the queue
`[Hangup]` yields `Hangup` and becomes empty. -/
theorem iter_next_nonblocking_witness :
    SignalIter.next startState = (startState, none) ∧
    SignalIter.next { startState with queue := [Signal.Hangup] } =
      (startState, some Signal.Hangup) :=
  ⟨(iter_next_nonblocking startState).1 rfl,
   (iter_next_nonblocking { startState with queue := [Signal.Hangup] }).2
     Signal.Hangup [] rfl⟩

/-- C10: in every state reachable through the public interface, once the
`Once` body has run — in particular whenever a live handle exists
(`ALIVE = true`), and in every state after the first successful
`Signals::new` — the `SND` and `RCV` statics are non-null and both point at
the one channel (id `0`), and `Signals::receiver` returns that non-null
pointer; so the dispatch routine (which dereferences `SND` only after the
`ALIVE` check), `receiver()`, and `SignalIter::next` (both reachable only
while a handle is borrowed) never dereference an uninitialized pointer. -/
theorem pointer_invariant {s : GState} (h : Reachable s) :
    (s.initialized = true →
      s.snd = some 0 ∧ s.rcv = some 0 ∧ s.snd = s.rcv) ∧
    (s.alive = true →
      s.initialized = true ∧ s.snd = some 0 ∧ s.rcv = some 0 ∧
      Signals.receiver s = some 0) := by
  have hv := reachable_channelInv h
  constructor
  · intro hinit
    obtain ⟨hsn, hrc, _⟩ := hv.1 hinit
    exact ⟨hsn, hrc, hsn.trans hrc.symm⟩
  · intro ha
    have hinit := hv.2.2 ha
    obtain ⟨hsn, hrc, _⟩ := hv.1 hinit
    exact ⟨hinit, hsn, hrc, hrc⟩

/-- Witness for C10 in the reachable state right after the first successful
`Signals::new` (a live handle exists there). -/
theorem pointer_invariant_witness :
    (Signals.new startState).1.snd = some 0 ∧
    (Signals.new startState).1.rcv = some 0 ∧
    Signals.receiver (Signals.new startState).1 = some 0 :=
  ⟨((pointer_invariant (Reachable.new Reachable.start)).2 rfl).2.1,
   ((pointer_invariant (Reachable.new Reachable.start)).2 rfl).2.2.1,
   ((pointer_invariant (Reachable.new Reachable.start)).2 rfl).2.2.2⟩
